import Mathlib

/-!
Verification of `Resume_Writer.py` (alakbd/resume-writer).

This file gives a shallow embedding of the pure core of the program:
the Python string helpers it relies on, the per-line classification
loops of `save_resume_docx` and `save_resume_pdf`, the file-routing
logic of `read_file`, the UTF-8 decoding used by the `.txt` branch,
the bounded-retry completion client `call_openai_chat`, and the
control flow of `main` and `show_sample_preview` around them.
Side-effecting operations (document-library calls, `st.error`,
`time.sleep`, the network call) are modelled by recording their
arguments in the returned data: a renderer returns the list of styled
paragraphs it would emit, the completion client returns the result
string together with the list of backoff sleeps and the number of
service invocations performed.
-/

/-- Whitespace as recognised by Python `str.strip` / regex `\s` on ASCII. -/
def pyIsSpace (c : Char) : Bool :=
  c = ' ' || c = '\t' || c = '\n' || c = '\x0d' || c = '\x0b' || c = '\x0c'

/-- Python `str.strip()`: drop leading and trailing whitespace. -/
def pyStrip (s : String) : String :=
  ⟨((s.data.dropWhile pyIsSpace).reverse.dropWhile pyIsSpace).reverse⟩

/-- Python `str.upper()` on ASCII letters. -/
def pyUpper (s : String) : String :=
  ⟨s.data.map Char.toUpper⟩

/-- Python `str.lower()` on ASCII letters. -/
def pyLower (s : String) : String :=
  ⟨s.data.map Char.toLower⟩

/-- Python `str.startswith(pre)`. -/
def py_startswith (s pre : String) : Bool :=
  decide (s.data.take pre.data.length = pre.data)

/-- Python `str.endswith(suffix)`, phrased via the reversed character list. -/
def py_endswith (s suf : String) : Bool :=
  decide (s.data.reverse.take suf.data.length = suf.data.reverse)

/-- Python `text.split("\n")` on the character list: split on newline,
keeping empty fields, so the empty text yields one empty field. -/
def splitCharsNl : List Char → List (List Char)
  | [] => [[]]
  | c :: rest =>
    if c = '\n' then [] :: splitCharsNl rest
    else
      match splitCharsNl rest with
      | [] => [[c]]
      | g :: gs => (c :: g) :: gs

/-- Python `text.split("\n")`. -/
def py_split_nl (s : String) : List String :=
  (splitCharsNl s.data).map (fun cs => ⟨cs⟩)

/-- `extract_name` (line 181): returns the constant title for every résumé. -/
def extract_name (_resume_text : String) : String :=
  "Curricula Vitae"

/-- The section-header test shared by both renderers (lines 229 and 326):
`re.match` of the anchored alternation with `re.IGNORECASE` succeeds
exactly when the whole line equals one of the vocabulary words up to
ASCII case. -/
def is_section_header (line : String) : Bool :=
  ["PROFESSIONAL SUMMARY", "EXPERIENCE", "EDUCATION", "SKILLS",
   "CERTIFICATIONS", "PROJECTS"].contains (pyUpper line)

/-- The bullet test of lines 242 and 331: the line starts with `-`, `•` or `*`. -/
def is_bullet_line (line : String) : Bool :=
  py_startswith line "-" || py_startswith line "•" || py_startswith line "*"

/-- `re.sub(r'^[-•*]\s*', '', line)` (lines 243 and 332): drop one leading
bullet character and the whitespace run after it. -/
def strip_bullet_marker (line : String) : String :=
  match line.data with
  | [] => line
  | c :: rest =>
    if c = '-' || c = '•' || c = '*' then ⟨rest.dropWhile pyIsSpace⟩ else line

/-- A paragraph emitted by `save_resume_docx`: the title paragraph, the
empty spacing paragraph, a bold section heading, a `List Bullet`
paragraph, or a plain paragraph. -/
inductive DocxPara where
  | title (text : String)
  | empty
  | heading (text : String)
  | listBullet (text : String)
  | normal (text : String)
deriving DecidableEq, Repr

/-- The line loop of `save_resume_docx` (lines 223-251), carrying the
`current_section` cursor (`none` models Python `None`). -/
def docx_body : List String → Option String → List DocxPara
  | [], _ => []
  | line :: rest, current_section =>
    let l := pyStrip line
    if l = "" then docx_body rest current_section
    else if is_section_header l = true then
      DocxPara.heading (pyUpper l) :: docx_body rest (some (pyUpper l))
    else if current_section = some "EXPERIENCE" ∧ is_bullet_line l = true then
      DocxPara.listBullet (strip_bullet_marker l) :: docx_body rest current_section
    else
      DocxPara.normal l :: docx_body rest current_section

/-- `save_resume_docx` (lines 201-254) as the list of paragraphs it adds
to the document: the styled title, the spacing paragraph, then the body. -/
def save_resume_docx (resume_text : String) : List DocxPara :=
  DocxPara.title (extract_name resume_text) :: DocxPara.empty ::
    docx_body (py_split_nl resume_text) none

/-- A flowable appended to the `story` by `save_resume_pdf`: a paragraph
with one of the styles `ResumeTitle`, `ResumeHeading`, `ResumeBullet`,
`ResumeBody`; a `ResumeBullet` paragraph carries the rendered text
`"• " ++ bullet_text` exactly as built on line 333. -/
inductive PdfPara where
  | para (style : String) (text : String)
deriving DecidableEq, Repr

/-- The line loop of `save_resume_pdf` (lines 320-337). -/
def pdf_body : List String → Option String → List PdfPara
  | [], _ => []
  | line :: rest, current_section =>
    let l := pyStrip line
    if l = "" then pdf_body rest current_section
    else if is_section_header l = true then
      PdfPara.para "ResumeHeading" (pyUpper l) :: pdf_body rest (some (pyUpper l))
    else if current_section = some "EXPERIENCE" ∧ is_bullet_line l = true then
      PdfPara.para "ResumeBullet" ("• " ++ strip_bullet_marker l) ::
        pdf_body rest current_section
    else
      PdfPara.para "ResumeBody" l :: pdf_body rest current_section

/-- `save_resume_pdf` (lines 257-340) as the `story` it builds: the title
flowable followed by the body flowables. -/
def save_resume_pdf (resume_text : String) : List PdfPara :=
  PdfPara.para "ResumeTitle" (extract_name resume_text) ::
    pdf_body (py_split_nl resume_text) none

/-- One outcome of the remote chat-completion service, as distinguished
by the `except` arms of `call_openai_chat` (lines 152-177): a successful
response carrying the first completion text, or one of the exception
signals `RateLimitError`, `AuthenticationError`, `InvalidRequestError`
(with its message), or any other exception (with its message). -/
inductive ApiOutcome where
  | success (text : String)
  | rateLimit
  | authError
  | invalidRequest (msg : String)
  | otherError (msg : String)
deriving DecidableEq, Repr

/-- What a run of `call_openai_chat` produced: the returned string, the
list of `time.sleep` durations (seconds, in order), and how many times
the completion service was invoked. -/
structure CallResult where
  result : String
  sleeps : List Nat
  calls : Nat
deriving DecidableEq, Repr

/-- The `for attempt in range(max_retries)` loop of `call_openai_chat`
(lines 150-178), structurally recursive on the number of remaining
iterations; the service is a function from the attempt index to its
outcome.  Falling out of the loop returns the final unexpected-error
string (line 178). -/
def callLoop (service : Nat → ApiOutcome) (max_retries : Nat) :
    Nat → Nat → List Nat → Nat → CallResult
  | 0, _, sleeps, calls =>
    ⟨"Error: Unexpected error occurred during resume generation.", sleeps, calls⟩
  | remaining + 1, attempt, sleeps, calls =>
    match service attempt with
    | ApiOutcome.success text => ⟨pyStrip text, sleeps, calls + 1⟩
    | ApiOutcome.rateLimit =>
      if attempt < max_retries - 1 then
        callLoop service max_retries remaining (attempt + 1)
          (sleeps ++ [2 ^ attempt]) (calls + 1)
      else
        ⟨"Error: OpenAI API rate limit exceeded. Please try again later.",
         sleeps, calls + 1⟩
    | ApiOutcome.authError =>
      ⟨"Error: Invalid API key. Please check your OpenAI API credentials.",
       sleeps, calls + 1⟩
    | ApiOutcome.invalidRequest msg =>
      ⟨"Error: Invalid request to OpenAI API: " ++ msg, sleeps, calls + 1⟩
    | ApiOutcome.otherError msg =>
      if attempt < max_retries - 1 then
        callLoop service max_retries remaining (attempt + 1)
          (sleeps ++ [1]) (calls + 1)
      else
        ⟨"Error: Failed to generate resume after " ++ toString max_retries
           ++ " attempts. " ++ msg, sleeps, calls + 1⟩

/-- `call_openai_chat` (lines 147-178): run the retry loop from attempt 0
with no sleeps performed and no calls made.  The Python default for
`max_retries` is 3. -/
def call_openai_chat (service : Nat → ApiOutcome) (max_retries : Nat) : CallResult :=
  callLoop service max_retries max_retries 0 [] 0

/-- An uploaded file as seen by `read_file` (line 479): its name and its
raw bytes (each byte a `Nat` below 256). -/
structure UploadedFile where
  name : String
  content : List Nat
deriving DecidableEq, Repr

/-- The branch of `read_file` (lines 479-497) taken for a given upload:
`emptyNone` is the `file is None` early return of `""`, `textPath` the
`.txt` branch, `docxPath` the `.docx` branch, `pdfPath` the `.pdf`
branch, and `unknown` the fall-through `return ""`. -/
inductive ExtractRoute where
  | emptyNone
  | textPath
  | docxPath
  | pdfPath
  | unknown
deriving DecidableEq, Repr

/-- The dispatch chain of `read_file` (lines 479-497): the route is chosen
by the filename suffix alone; the bytes are never inspected. -/
def read_file_route (file : Option UploadedFile) : ExtractRoute :=
  match file with
  | none => ExtractRoute.emptyNone
  | some f =>
    if py_endswith f.name ".txt" = true then ExtractRoute.textPath
    else if py_endswith f.name ".docx" = true then ExtractRoute.docxPath
    else if py_endswith f.name ".pdf" = true then ExtractRoute.pdfPath
    else ExtractRoute.unknown

/-- The four leading bytes `%PDF` of the PDF magic marker. -/
def pdfMagic : List Nat := [37, 80, 68, 70]

/-- Whether a byte buffer starts with the PDF magic marker. -/
def has_pdf_magic (content : List Nat) : Bool :=
  decide (content.take 4 = pdfMagic)

/-- The continuation byte of a two-byte UTF-8 sequence with lead byte `b`:
if present and in range, yield the decoded code point and the remaining
bytes. -/
def utf8Cont1 (b : Nat) : List Nat → Option (Nat × List Nat)
  | b1 :: rest1 =>
    if 128 ≤ b1 ∧ b1 ≤ 191 then some ((b - 192) * 64 + (b1 - 128), rest1) else none
  | [] => none

/-- The two continuation bytes of a three-byte UTF-8 sequence with lead
byte `b`, rejecting overlong encodings and surrogate code points as
CPython does. -/
def utf8Cont2 (b : Nat) : List Nat → Option (Nat × List Nat)
  | b1 :: b2 :: rest2 =>
    if (128 ≤ b1 ∧ b1 ≤ 191) ∧ (128 ≤ b2 ∧ b2 ≤ 191) then
      if 2048 ≤ (b - 224) * 4096 + (b1 - 128) * 64 + (b2 - 128) ∧
          ¬(55296 ≤ (b - 224) * 4096 + (b1 - 128) * 64 + (b2 - 128) ∧
            (b - 224) * 4096 + (b1 - 128) * 64 + (b2 - 128) ≤ 57343) then
        some ((b - 224) * 4096 + (b1 - 128) * 64 + (b2 - 128), rest2)
      else none
    else none
  | _ => none

/-- The three continuation bytes of a four-byte UTF-8 sequence with lead
byte `b`, rejecting overlong encodings and values above `0x10FFFF`. -/
def utf8Cont3 (b : Nat) : List Nat → Option (Nat × List Nat)
  | b1 :: b2 :: b3 :: rest3 =>
    if (128 ≤ b1 ∧ b1 ≤ 191) ∧ (128 ≤ b2 ∧ b2 ≤ 191) ∧ (128 ≤ b3 ∧ b3 ≤ 191) then
      if 65536 ≤ (b - 240) * 262144 + (b1 - 128) * 4096 + (b2 - 128) * 64 + (b3 - 128) ∧
          (b - 240) * 262144 + (b1 - 128) * 4096 + (b2 - 128) * 64 + (b3 - 128) ≤ 1114111 then
        some ((b - 240) * 262144 + (b1 - 128) * 4096 + (b2 - 128) * 64 + (b3 - 128), rest3)
      else none
    else none
  | _ => none

/-- Decode one UTF-8 sequence whose lead byte is `b` and whose following
bytes start `rest`: the decoded code point and the bytes left over, or
`none` on any malformed sequence.  Lead bytes `0x80`-`0xC1` (stray
continuations and two-byte overlongs) and `0xF5`-`0xFF` are rejected,
as in CPython. -/
def utf8DecodeOne (b : Nat) (rest : List Nat) : Option (Nat × List Nat) :=
  if b < 128 then some (b, rest)
  else if 194 ≤ b ∧ b ≤ 223 then utf8Cont1 b rest
  else if 224 ≤ b ∧ b ≤ 239 then utf8Cont2 b rest
  else if 240 ≤ b ∧ b ≤ 244 then utf8Cont3 b rest
  else none

/-- The decode loop: one sequence per step.  The first argument is fuel
for structural termination only; every step consumes at least one byte,
so with fuel `bs.length` (as `utf8Decode` supplies) the `0, _ :: _`
branch is never reached. -/
def utf8DecodeLoop : Nat → List Nat → Option (List Nat)
  | _, [] => some []
  | 0, _ :: _ => none
  | fuel + 1, b :: rest =>
    match utf8DecodeOne b rest with
    | some (v, rest1) => (utf8DecodeLoop fuel rest1).map (fun vs => v :: vs)
    | none => none

/-- Strict UTF-8 decoding of a byte list into the list of decoded code
points, modelling CPython `bytes.decode("utf-8")`: `none` models the
raised `UnicodeDecodeError`. -/
def utf8Decode (bs : List Nat) : Option (List Nat) :=
  utf8DecodeLoop bs.length bs

/-- A Unicode scalar value: below the surrogate range or between the end
of the surrogate range and `0x110000`. -/
def ValidScalar (v : Nat) : Prop :=
  v < 55296 ∨ (57344 ≤ v ∧ v < 1114112)

instance (v : Nat) : Decidable (ValidScalar v) := by
  unfold ValidScalar; infer_instance

/-- Standard UTF-8 encoding of one scalar value. -/
def encodeScalar (v : Nat) : List Nat :=
  if v < 128 then [v]
  else if v < 2048 then [192 + v / 64, 128 + v % 64]
  else if v < 65536 then [224 + v / 4096, 128 + v / 64 % 64, 128 + v % 64]
  else [240 + v / 262144, 128 + v / 4096 % 64, 128 + v / 64 % 64, 128 + v % 64]

/-- UTF-8 encoding of a list of scalar values. -/
def utf8Encode : List Nat → List Nat
  | [] => []
  | v :: vs => encodeScalar v ++ utf8Encode vs

/-- Python `bytes.decode("latin-1")`: every byte maps to the code point
of the same value, so it never fails. -/
def latin1_decode (content : List Nat) : List Nat := content

/-- The `.txt` branch of `read_file` (lines 482-483): the buffer is
decoded as UTF-8 with no fallback; `none` models the uncaught
`UnicodeDecodeError` escaping `read_file`. -/
def read_file_txt (content : List Nat) : Option (List Nat) :=
  utf8Decode content

/-- `build_prompt` (lines 110-144): the fixed instruction template with the
tone label (lower-cased), the résumé text and the job text interpolated. -/
def build_prompt (resume_text job_text tone : String) : String :=
  "\nYou are an expert professional résumé writer with deep knowledge of Applicant Tracking Systems (ATS). \nRewrite the candidate's résumé to maximize their chances for the specific job while maintaining truthfulness.\n\nCRITICAL GUIDELINES:\n1. Job Alignment: \n   - Extract key skills, technologies, and requirements from the job description\n   - Mirror the language and terminology used in the job description\n   - Prioritize relevant experience and quantify achievements with metrics where possible\n\n2. ATS Optimization:\n   - Include relevant keywords from the job description naturally\n   - Use standard section headers (Professional Summary, Experience, Education, Skills, Certifications)\n   - Use bullet points for achievements with action verbs (Managed, Developed, Increased, Reduced)\n   - Avoid tables, columns, graphics, or unusual formatting\n\n3. Content Structure:\n   - Professional Summary: 3-4 lines highlighting most relevant qualifications\n   - Experience: Focus on last 10-15 years, emphasize relevant roles\n   - Skills: Categorize (Technical, Soft, Certifications) and match job requirements\n   - Keep to 1-2 pages maximum\n\n4. Tone: Write in a "
    ++ pyLower tone
    ++ " tone.\n\nCandidate's current résumé:\n"
    ++ resume_text
    ++ "\n\nJob description:\n"
    ++ job_text
    ++ "\n\nGenerate ONLY the rewritten résumé with no explanations or commentary:\n"

/-- `SAMPLE_CV` (lines 38-66), used by the sample-preview path. -/
def SAMPLE_CV : String :=
  "\nJohn Doe\nEmail: john.doe@example.com | Phone: (555) 123-4567 | LinkedIn: linkedin.com/in/johndoe\n\nPROFESSIONAL SUMMARY\nSoftware Engineer with 5+ years of experience in full-stack development. Specialized in JavaScript, Python, and cloud technologies. Proven track record of delivering scalable web applications and improving system performance.\n\nEXPERIENCE\nSenior Software Engineer, Tech Solutions Inc. (2020-Present)\n- Developed and maintained responsive web applications using React.js and Node.js\n- Led a team of 4 developers to deliver a customer portal that increased user engagement by 35%\n- Implemented CI/CD pipelines reducing deployment time by 40%\n- Optimized database queries, improving application performance by 25%\n\nSoftware Developer, Innovate Labs (2018-2020)\n- Built RESTful APIs using Python and Django framework\n- Collaborated with UX designers to implement user-friendly interfaces\n- Reduced server costs by 20% through code optimization and caching strategies\n\nEDUCATION\nBachelor of Science in Computer Science\nUniversity of Technology, Graduated 2018\n\nSKILLS\n- Programming Languages: JavaScript, Python, Java, SQL\n- Frameworks: React, Node.js, Django, Express.js\n- Tools: Git, Docker, AWS, Jenkins, MongoDB\n- Certifications: AWS Certified Developer, Scrum Master\n"

/-- `SAMPLE_JOB_DESCRIPTION` (lines 68-101), used by the sample-preview path. -/
def SAMPLE_JOB_DESCRIPTION : String :=
  "\nSenior Full Stack Developer Position\n\nWe are looking for an experienced Senior Full Stack Developer to join our dynamic team. The ideal candidate will have a strong background in both front-end and back-end development, with expertise in modern JavaScript frameworks and cloud technologies.\n\nResponsibilities:\n- Design, develop, and maintain scalable web applications\n- Collaborate with cross-functional teams to define, design, and ship new features\n- Write clean, maintainable, and efficient code\n- Implement security and data protection measures\n- Optimize applications for maximum speed and scalability\n- Mentor junior developers and conduct code reviews\n\nRequirements:\n- 5+ years of experience in full-stack development\n- Proficiency with JavaScript frameworks (React, Angular, or Vue)\n- Strong experience with Node.js and Python\n- Familiarity with database technology such as MongoDB and PostgreSQL\n- Experience with cloud services (AWS, Azure, or GCP)\n- Knowledge of code versioning tools, such as Git\n- Excellent problem-solving skills and attention to detail\n\nPreferred Qualifications:\n- Experience with containerization technologies (Docker, Kubernetes)\n- Familiarity with CI/CD pipelines\n- Understanding of agile methodologies\n- Bachelor's degree in Computer Science or related field\n\nBenefits:\n- Competitive salary and performance bonuses\n- Comprehensive health insurance\n- Flexible working hours and remote work options\n- Professional development opportunities\n"

/-- What the generate branch of `main` (lines 505-532) did for given
extracted texts: the user-visible error that halted the run (if any),
the generated output shown on success, how many prompts were built,
and how many completion-service invocations happened. -/
structure MainTrace where
  errorMsg : Option String
  output : Option String
  promptsBuilt : Nat
  apiCalls : Nat
deriving DecidableEq, Repr

/-- The generate branch of `main` after both files were read (lines
505-532): empty extracted text halts (line 510), an `Error:`-prefixed
extraction halts (line 515), otherwise the prompt is built, the
completion client is called with the default retry bound 3, and an
`Error:`-prefixed result halts (lines 523-525). -/
def main_generate (service : Nat → ApiOutcome)
    (resume_text job_text tone : String) : MainTrace :=
  if resume_text = "" ∨ job_text = "" then
    ⟨some "Could not extract text from uploaded files. Please try again with different files.",
     none, 0, 0⟩
  else if py_startswith resume_text "Error:" = true ∨ py_startswith job_text "Error:" = true then
    ⟨some ("Error processing files: "
            ++ (if py_startswith resume_text "Error:" = true then resume_text else job_text)),
     none, 0, 0⟩
  else
    let _prompt := build_prompt resume_text job_text tone
    let r := call_openai_chat service 3
    if py_startswith r.result "Error:" = true then
      ⟨some r.result, none, 1, r.calls⟩
    else
      ⟨none, some r.result, 1, r.calls⟩

/-- What the main pipeline does at the credential check (lines 446-449),
before any upload is read: absence of the key is `st.error` plus
`st.stop`. -/
inductive MainStartup where
  | halted (msg : String)
  | proceeding (api_key : String)
deriving DecidableEq, Repr

/-- The credential check of `main` (lines 446-449).  At this point no
prompt has been built and no completion call attempted on this path. -/
def main_startup (api_key : Option String) : MainStartup :=
  match api_key with
  | none =>
    MainStartup.halted
      "OpenAI API key not configured. Please set the OPENAI_API_KEY environment variable."
  | some k => MainStartup.proceeding k

/-- What pressing the sample-generate button of `show_sample_preview`
(lines 356-375) did: prompts built, service invocations, whether a
user-visible error was shown, and the output displayed on success. -/
structure PreviewTrace where
  promptsBuilt : Nat
  apiCalls : Nat
  errorShown : Bool
  output : Option String
deriving DecidableEq, Repr

/-- The sample-generate handler (lines 356-375): the prompt is built on
line 359 before the credential is read on line 360; a missing key shows
an error and returns; otherwise the completion client runs with the
default retry bound 3 and an `Error:`-prefixed result shows an error. -/
def sample_preview_generate (api_key : Option String)
    (service : Nat → ApiOutcome) : PreviewTrace :=
  let _prompt := build_prompt SAMPLE_CV SAMPLE_JOB_DESCRIPTION "Professional"
  match api_key with
  | none => ⟨1, 0, true, none⟩
  | some _ =>
    let r := call_openai_chat service 3
    if py_startswith r.result "Error:" = true then
      ⟨1, r.calls, true, none⟩
    else
      ⟨1, r.calls, false, some r.result⟩

/-- The class a renderer assigns to a non-blank line: section header,
experience bullet (with the marker stripped), or plain paragraph.
Blank lines are skipped by both renderers and so appear in neither
classification. -/
inductive LineClass where
  | header (text : String)
  | bullet (text : String)
  | plain (text : String)
deriving DecidableEq, Repr

/-- The class of a paragraph emitted by `save_resume_docx`'s line loop
(the title and spacing paragraphs are not produced by the loop). -/
def docx_para_class : DocxPara → LineClass
  | DocxPara.heading t => LineClass.header t
  | DocxPara.listBullet t => LineClass.bullet t
  | DocxPara.normal t => LineClass.plain t
  | DocxPara.title t => LineClass.plain t
  | DocxPara.empty => LineClass.plain ""

/-- The class of a flowable emitted by `save_resume_pdf`'s line loop: a
`ResumeBullet` flowable carries `"• " ++ bullet_text`, so its class
recovers the stripped bullet text by dropping those two characters. -/
def pdf_para_class : PdfPara → LineClass
  | PdfPara.para style t =>
    if style = "ResumeHeading" then LineClass.header t
    else if style = "ResumeBullet" then LineClass.bullet ⟨t.data.drop 2⟩
    else LineClass.plain t

/-- The encoding of a scalar value is never the empty byte list. -/
lemma encodeScalar_ne_nil (v : Nat) : encodeScalar v ≠ [] := by
  unfold encodeScalar
  split_ifs <;> simp

/-- Decoding one sequence from the encoding of a valid scalar value
prepended to any byte tail yields that scalar and the tail. -/
lemma utf8DecodeOne_encode (v : Nat) (hv : ValidScalar v) (bs : List Nat) :
    ∃ b rest, encodeScalar v ++ bs = b :: rest ∧ utf8DecodeOne b rest = some (v, bs) := by
  have hv' : v < 55296 ∨ (57344 ≤ v ∧ v < 1114112) := hv
  rcases Nat.lt_or_ge v 128 with h1 | h1
  · refine ⟨v, bs, ?_, ?_⟩
    · unfold encodeScalar; rw [if_pos h1]; rfl
    · unfold utf8DecodeOne; rw [if_pos h1]
  rcases Nat.lt_or_ge v 2048 with h2 | h2
  · refine ⟨192 + v / 64, (128 + v % 64) :: bs, ?_, ?_⟩
    · unfold encodeScalar; rw [if_neg (by omega), if_pos h2]; rfl
    · unfold utf8DecodeOne
      rw [if_neg (by omega), if_pos (by omega : 194 ≤ 192 + v / 64 ∧ 192 + v / 64 ≤ 223)]
      rw [utf8Cont1, if_pos (by omega : 128 ≤ 128 + v % 64 ∧ 128 + v % 64 ≤ 191)]
      have hval : (192 + v / 64 - 192) * 64 + (128 + v % 64 - 128) = v := by omega
      rw [hval]
  rcases Nat.lt_or_ge v 65536 with h3 | h3
  · refine ⟨224 + v / 4096, (128 + v / 64 % 64) :: (128 + v % 64) :: bs, ?_, ?_⟩
    · unfold encodeScalar; rw [if_neg (by omega), if_neg (by omega), if_pos h3]; rfl
    · unfold utf8DecodeOne
      rw [if_neg (by omega), if_neg (by omega),
          if_pos (by omega : 224 ≤ 224 + v / 4096 ∧ 224 + v / 4096 ≤ 239)]
      rw [utf8Cont2,
          if_pos (by omega :
            (128 ≤ 128 + v / 64 % 64 ∧ 128 + v / 64 % 64 ≤ 191) ∧
            (128 ≤ 128 + v % 64 ∧ 128 + v % 64 ≤ 191))]
      have hval : (224 + v / 4096 - 224) * 4096 + (128 + v / 64 % 64 - 128) * 64 +
          (128 + v % 64 - 128) = v := by omega
      rw [hval, if_pos (by omega : 2048 ≤ v ∧ ¬(55296 ≤ v ∧ v ≤ 57343))]
  · have hup : v < 1114112 := by omega
    refine ⟨240 + v / 262144,
      (128 + v / 4096 % 64) :: (128 + v / 64 % 64) :: (128 + v % 64) :: bs, ?_, ?_⟩
    · unfold encodeScalar
      rw [if_neg (by omega), if_neg (by omega), if_neg (by omega)]
      rfl
    · unfold utf8DecodeOne
      rw [if_neg (by omega), if_neg (by omega), if_neg (by omega),
          if_pos (by omega : 240 ≤ 240 + v / 262144 ∧ 240 + v / 262144 ≤ 244)]
      rw [utf8Cont3,
          if_pos (by omega :
            (128 ≤ 128 + v / 4096 % 64 ∧ 128 + v / 4096 % 64 ≤ 191) ∧
            (128 ≤ 128 + v / 64 % 64 ∧ 128 + v / 64 % 64 ≤ 191) ∧
            (128 ≤ 128 + v % 64 ∧ 128 + v % 64 ≤ 191))]
      have hval : (240 + v / 262144 - 240) * 262144 + (128 + v / 4096 % 64 - 128) * 4096 +
          (128 + v / 64 % 64 - 128) * 64 + (128 + v % 64 - 128) = v := by omega
      rw [hval, if_pos (by omega : 65536 ≤ v ∧ v ≤ 1114111)]

/-- The decode loop inverts the encoder on any list of valid scalar
values, for every sufficient fuel. -/
lemma utf8DecodeLoop_encode :
    ∀ (cs : List Nat), (∀ v ∈ cs, ValidScalar v) →
      ∀ fuel, (utf8Encode cs).length ≤ fuel →
        utf8DecodeLoop fuel (utf8Encode cs) = some cs := by
  intro cs
  induction cs with
  | nil =>
    intro _ fuel _
    cases fuel <;> rfl
  | cons v vs ih =>
    intro h fuel hf
    obtain ⟨b, rest, heq, hone⟩ := utf8DecodeOne_encode v (h v (by simp)) (utf8Encode vs)
    have hlen : 1 ≤ (encodeScalar v).length := by
      cases hev : encodeScalar v with
      | nil => exact absurd hev (encodeScalar_ne_nil v)
      | cons x xs => simp
    have hf' : (utf8Encode vs).length ≤ fuel - 1 := by
      rw [utf8Encode, List.length_append] at hf
      omega
    obtain ⟨f, rfl⟩ : ∃ f, fuel = f + 1 := by
      refine ⟨fuel - 1, ?_⟩
      rw [utf8Encode, List.length_append] at hf
      omega
    rw [utf8Encode, heq, utf8DecodeLoop, hone]
    dsimp only
    rw [ih (fun u hu => h u (by simp [hu])) f (by simpa using hf')]
    rfl

/-- UTF-8 decoding inverts UTF-8 encoding on every list of valid scalar
values. -/
lemma utf8_decode_encode (cs : List Nat) (h : ∀ v ∈ cs, ValidScalar v) :
    utf8Decode (utf8Encode cs) = some cs :=
  utf8DecodeLoop_encode cs h (utf8Encode cs).length le_rfl

/-- A prefix of `a` is a prefix of `a ++ b`. -/
lemma py_startswith_append_left (a b pre : String)
    (ha : py_startswith a pre = true) : py_startswith (a ++ b) pre = true := by
  unfold py_startswith at ha ⊢
  have h := of_decide_eq_true ha
  have hlen : pre.data.length ≤ a.data.length := by
    have hl := congrArg List.length h
    simp only [List.length_take] at hl
    omega
  apply decide_eq_true
  rw [String.data_append, List.take_append_of_le_length hlen, h]

/-- A name ending in `.pdf` does not end in `.txt`. -/
lemma endswith_pdf_not_txt (name : String) (h : py_endswith name ".pdf" = true) :
    py_endswith name ".txt" = false := by
  cases hb : py_endswith name ".txt" with
  | false => rfl
  | true =>
    exfalso
    have h1 : name.data.reverse.take 4 = ['f', 'd', 'p', '.'] := of_decide_eq_true h
    have h2 : name.data.reverse.take 4 = ['t', 'x', 't', '.'] := of_decide_eq_true hb
    rw [h1] at h2
    simp at h2

/-- A name ending in `.pdf` does not end in `.docx`. -/
lemma endswith_pdf_not_docx (name : String) (h : py_endswith name ".pdf" = true) :
    py_endswith name ".docx" = false := by
  cases hb : py_endswith name ".docx" with
  | false => rfl
  | true =>
    exfalso
    have h1 : name.data.reverse.take 4 = ['f', 'd', 'p', '.'] := of_decide_eq_true h
    have h2 : name.data.reverse.take 5 = ['x', 'c', 'o', 'd', '.'] := of_decide_eq_true hb
    have h3 : (name.data.reverse.take 5).take 4 = name.data.reverse.take 4 := by
      rw [List.take_take]
      norm_num
    rw [h1, h2] at h3
    simp at h3

/-- Every exit of the retry loop that is not a successful completion
returns a string starting with the tag `Error:`. -/
lemma callLoop_error_prefix (service : Nat → ApiOutcome)
    (hs : ∀ n t, service n ≠ ApiOutcome.success t) (max_retries : Nat) :
    ∀ remaining attempt sleeps calls,
      py_startswith (callLoop service max_retries remaining attempt sleeps calls).result
        "Error:" = true := by
  intro remaining
  induction remaining with
  | zero =>
    intro attempt sleeps calls
    show py_startswith "Error: Unexpected error occurred during resume generation."
      "Error:" = true
    decide
  | succ m ih =>
    intro attempt sleeps calls
    rw [callLoop]
    cases hout : service attempt with
    | success t => exact absurd hout (hs attempt t)
    | rateLimit =>
      dsimp only
      by_cases hlt : attempt < max_retries - 1
      · rw [if_pos hlt]; exact ih (attempt + 1) (sleeps ++ [2 ^ attempt]) (calls + 1)
      · rw [if_neg hlt]
        show py_startswith "Error: OpenAI API rate limit exceeded. Please try again later."
          "Error:" = true
        decide
    | authError =>
      show py_startswith "Error: Invalid API key. Please check your OpenAI API credentials."
        "Error:" = true
      decide
    | invalidRequest msg =>
      dsimp only
      exact py_startswith_append_left "Error: Invalid request to OpenAI API: " msg
        "Error:" (by decide)
    | otherError msg =>
      dsimp only
      by_cases hlt : attempt < max_retries - 1
      · rw [if_pos hlt]; exact ih (attempt + 1) (sleeps ++ [1]) (calls + 1)
      · rw [if_neg hlt]
        exact py_startswith_append_left _ msg "Error:"
          (py_startswith_append_left _ " attempts. " "Error:"
            (py_startswith_append_left "Error: Failed to generate resume after "
              (toString max_retries) "Error:" (by decide)))

/-- The two renderers' line loops assign every line the same class, for
any line list and any starting section cursor. -/
lemma body_class_eq (lines : List String) :
    ∀ current_section : Option String,
      (docx_body lines current_section).map docx_para_class =
        (pdf_body lines current_section).map pdf_para_class := by
  induction lines with
  | nil => intro _; rfl
  | cons line rest ih =>
    intro curr
    rw [docx_body, pdf_body]
    by_cases h1 : pyStrip line = ""
    · rw [if_pos h1, if_pos h1]
      exact ih curr
    rw [if_neg h1, if_neg h1]
    by_cases h2 : is_section_header (pyStrip line) = true
    · rw [if_pos h2, if_pos h2]
      simp only [List.map, docx_para_class, pdf_para_class, if_true, if_false]
      rw [ih (some (pyUpper (pyStrip line)))]
    rw [if_neg h2, if_neg h2]
    by_cases h3 : curr = some "EXPERIENCE" ∧ is_bullet_line (pyStrip line) = true
    · rw [if_pos h3, if_pos h3]
      simp only [List.map, docx_para_class, pdf_para_class, if_true, if_false]
      have hdrop : (⟨("• " ++ strip_bullet_marker (pyStrip line)).data.drop 2⟩ : String) =
          strip_bullet_marker (pyStrip line) := rfl
      rw [hdrop, ih curr, if_neg (by decide : ¬("ResumeBullet" = "ResumeHeading"))]
    · rw [if_neg h3, if_neg h3]
      simp only [List.map, docx_para_class, pdf_para_class, if_true, if_false]
      rw [ih curr, if_neg (by decide : ¬("ResumeBody" = "ResumeHeading")),
          if_neg (by decide : ¬("ResumeBody" = "ResumeBullet"))]

/-- Claim C1, counterexample: on the résumé text
`"Jane Doe\nSKILLS:\n- Python\n- SQL"` both renderers emit every line as
a plain paragraph — `SKILLS:` is not a styled heading (the header
vocabulary matches only the bare word, without the colon) and
`- Python` is not a bullet list item (bullets are recognised only
inside an `EXPERIENCE` section). -/
theorem C1_counterexample :
    save_resume_docx "Jane Doe\nSKILLS:\n- Python\n- SQL" =
      [DocxPara.title "Curricula Vitae", DocxPara.empty,
       DocxPara.normal "Jane Doe", DocxPara.normal "SKILLS:",
       DocxPara.normal "- Python", DocxPara.normal "- SQL"] ∧
    save_resume_pdf "Jane Doe\nSKILLS:\n- Python\n- SQL" =
      [PdfPara.para "ResumeTitle" "Curricula Vitae",
       PdfPara.para "ResumeBody" "Jane Doe",
       PdfPara.para "ResumeBody" "SKILLS:",
       PdfPara.para "ResumeBody" "- Python",
       PdfPara.para "ResumeBody" "- SQL"] := by
  constructor
  · decide
  · decide

/-- Claim C1, amended: the header test accepts only the bare vocabulary
word (`SKILLS` but not `SKILLS:`), and bullet items are recognised only
inside an `EXPERIENCE` section; on
`"Jane Doe\nEXPERIENCE\n- Python\n- SQL"` both renderers classify
`EXPERIENCE` as a styled section header and `- Python` as a bullet list
item with the marker stripped, distinct from the plain paragraph
`Jane Doe`. -/
theorem C1_header_and_bullet_amended :
    is_section_header "SKILLS" = true ∧
    is_section_header "SKILLS:" = false ∧
    save_resume_docx "Jane Doe\nEXPERIENCE\n- Python\n- SQL" =
      [DocxPara.title "Curricula Vitae", DocxPara.empty,
       DocxPara.normal "Jane Doe", DocxPara.heading "EXPERIENCE",
       DocxPara.listBullet "Python", DocxPara.listBullet "SQL"] ∧
    save_resume_pdf "Jane Doe\nEXPERIENCE\n- Python\n- SQL" =
      [PdfPara.para "ResumeTitle" "Curricula Vitae",
       PdfPara.para "ResumeBody" "Jane Doe",
       PdfPara.para "ResumeHeading" "EXPERIENCE",
       PdfPara.para "ResumeBullet" "• Python",
       PdfPara.para "ResumeBullet" "• SQL"] := by
  refine ⟨by decide, by decide, by decide, by decide⟩

/-- Claim C2, counterexample: a buffer that starts with the PDF magic
marker (`%PDF-1.4`) but is named `resume.txt` is routed to the text
branch, not the PDF branch — `read_file` never inspects the bytes. -/
theorem C2_counterexample :
    has_pdf_magic [37, 80, 68, 70, 45, 49, 46, 52] = true ∧
    read_file_route (some ⟨"resume.txt", [37, 80, 68, 70, 45, 49, 46, 52]⟩) =
      ExtractRoute.textPath ∧
    read_file_route (some ⟨"resume.txt", [37, 80, 68, 70, 45, 49, 46, 52]⟩) ≠
      ExtractRoute.pdfPath := by
  refine ⟨by decide, by decide, by decide⟩

/-- Claim C2, amended: routing is by filename suffix alone — every buffer
whose filename ends in `.pdf` is routed to the PDF extraction path, and
the chosen route never depends on the buffer's bytes. -/
theorem C2_route_by_suffix (name : String) (c c' : List Nat)
    (h : py_endswith name ".pdf" = true) :
    read_file_route (some ⟨name, c⟩) = ExtractRoute.pdfPath ∧
    read_file_route (some ⟨name, c⟩) = read_file_route (some ⟨name, c'⟩) := by
  have ht := endswith_pdf_not_txt name h
  have hd := endswith_pdf_not_docx name h
  have hroute : ∀ cc : List Nat, read_file_route (some ⟨name, cc⟩) = ExtractRoute.pdfPath := by
    intro cc
    unfold read_file_route
    dsimp only
    rw [if_neg (by simp [ht]), if_neg (by simp [hd]), if_pos h]
  exact ⟨hroute c, by rw [hroute c, hroute c']⟩

/-- Claim C2, witness for the amended theorem at `resume.pdf` with two
different byte buffers. -/
theorem C2_route_by_suffix_witness :
    py_endswith "resume.pdf" ".pdf" = true ∧
    read_file_route (some ⟨"resume.pdf", []⟩) = ExtractRoute.pdfPath ∧
    read_file_route (some ⟨"resume.pdf", []⟩) =
      read_file_route (some ⟨"resume.pdf", [37, 80, 68, 70]⟩) :=
  ⟨by decide, (C2_route_by_suffix "resume.pdf" [] [37, 80, 68, 70] (by decide)).1,
    (C2_route_by_suffix "resume.pdf" [] [37, 80, 68, 70] (by decide)).2⟩

/-- Claim C3, counterexample: on the single invalid-UTF-8 byte `0xFF`
the `.txt` branch raises (`none`) instead of returning the Latin-1
decoding of the buffer. -/
theorem C3_counterexample :
    read_file_txt [255] = none ∧
    latin1_decode [255] = [255] ∧
    read_file_txt [255] ≠ some (latin1_decode [255]) := by
  refine ⟨by decide, by decide, by decide⟩

/-- Claim C3, amended: for a `.txt` upload, extraction returns exactly the
UTF-8 decoding of the bytes — decoding the UTF-8 encoding of any valid
code-point sequence round-trips — but on invalid UTF-8 it raises a
decode error rather than falling back to Latin-1. -/
theorem C3_utf8_roundtrip (cs : List Nat) (h : ∀ v ∈ cs, ValidScalar v) :
    read_file_txt (utf8Encode cs) = some cs :=
  utf8_decode_encode cs h

/-- Claim C3, witness for the round-trip at the code points of `H`, `é`
and a four-byte emoji. -/
theorem C3_utf8_roundtrip_witness :
    (∀ v ∈ [72, 233, 128512], ValidScalar v) ∧
    read_file_txt (utf8Encode [72, 233, 128512]) = some [72, 233, 128512] :=
  ⟨by decide, C3_utf8_roundtrip [72, 233, 128512] (by decide)⟩

/-- Claim C4: against a service that rate-limits the first two attempts
and succeeds on the third, `call_openai_chat` with the default bound of
3 returns the successful text trimmed of surrounding whitespace, after
exactly two backoff sleeps of `2 ^ 0` and `2 ^ 1` seconds (and three
service invocations). -/
theorem C4_rate_limit_then_success (text : String) :
    call_openai_chat
      (fun n => if n < 2 then ApiOutcome.rateLimit else ApiOutcome.success text) 3 =
      ⟨pyStrip text, [2 ^ 0, 2 ^ 1], 3⟩ := rfl

/-- Claim C5: against a service that signals an authentication failure,
`call_openai_chat` returns the tagged error after the first attempt,
with no backoff sleep and exactly one service invocation, for every
positive retry bound. -/
theorem C5_auth_fail_fast (max_retries : Nat) (h : 1 ≤ max_retries) :
    call_openai_chat (fun _ => ApiOutcome.authError) max_retries =
      ⟨"Error: Invalid API key. Please check your OpenAI API credentials.", [], 1⟩ := by
  obtain ⟨m, rfl⟩ : ∃ m, max_retries = m + 1 := ⟨max_retries - 1, by omega⟩
  rfl

/-- Claim C5, witness at the default retry bound 3. -/
theorem C5_auth_fail_fast_witness :
    1 ≤ 3 ∧
    call_openai_chat (fun _ => ApiOutcome.authError) 3 =
      ⟨"Error: Invalid API key. Please check your OpenAI API credentials.", [], 1⟩ :=
  ⟨by decide, C5_auth_fail_fast 3 (by decide)⟩

/-- Claim C6: whenever either extracted text is empty, the generate
branch of `main` reports the user-visible extraction error and performs
no completion-service call. -/
theorem C6_empty_input_halts (service : Nat → ApiOutcome)
    (resume_text job_text tone : String) (h : resume_text = "" ∨ job_text = "") :
    (main_generate service resume_text job_text tone).errorMsg =
      some "Could not extract text from uploaded files. Please try again with different files." ∧
    (main_generate service resume_text job_text tone).apiCalls = 0 := by
  unfold main_generate
  rw [if_pos h]
  exact ⟨rfl, rfl⟩

/-- Claim C6, witness with an empty résumé text. -/
theorem C6_empty_input_halts_witness :
    ("" = "" ∨ "job text" = "") ∧
    (main_generate (fun _ => ApiOutcome.rateLimit) "" "job text" "Professional").errorMsg =
      some "Could not extract text from uploaded files. Please try again with different files." ∧
    (main_generate (fun _ => ApiOutcome.rateLimit) "" "job text" "Professional").apiCalls = 0 :=
  ⟨Or.inl rfl,
    (C6_empty_input_halts (fun _ => ApiOutcome.rateLimit) "" "job text" "Professional"
      (Or.inl rfl)).1,
    (C6_empty_input_halts (fun _ => ApiOutcome.rateLimit) "" "job text" "Professional"
      (Or.inl rfl)).2⟩

/-- Claim C7, counterexample: results are tagged only by the string
prefix `Error:`, so a genuinely successful completion whose text itself
starts with `Error:` is returned verbatim and then classified by `main`
as an error — the success and error cases are not disjoint. -/
theorem C7_counterexample :
    call_openai_chat (fun _ => ApiOutcome.success "Error: looks like an error") 3 =
      ⟨"Error: looks like an error", [], 1⟩ ∧
    (main_generate (fun _ => ApiOutcome.success "Error: looks like an error")
        "resume text" "job text" "Professional").output = none ∧
    (main_generate (fun _ => ApiOutcome.success "Error: looks like an error")
        "resume text" "job text" "Professional").errorMsg =
      some "Error: looks like an error" := by
  refine ⟨by decide, by decide, by decide⟩

/-- Claim C7, amended: every result the client produces without a
successful completion starts with the tag `Error:` (and is therefore
classified as an error by `main`); the converse direction fails, since
a success whose text starts with `Error:` is indistinguishable from an
error result. -/
theorem C7_error_results_tagged (service : Nat → ApiOutcome) (max_retries : Nat)
    (hs : ∀ n t, service n ≠ ApiOutcome.success t) :
    py_startswith (call_openai_chat service max_retries).result "Error:" = true :=
  callLoop_error_prefix service hs max_retries max_retries 0 [] 0

/-- Claim C7, witness for the amended theorem against an always
rate-limited service at the default bound. -/
theorem C7_error_results_tagged_witness :
    (∀ (n : Nat) (t : String), (fun (_ : Nat) => ApiOutcome.rateLimit) n ≠ ApiOutcome.success t) ∧
    py_startswith (call_openai_chat (fun _ => ApiOutcome.rateLimit) 3).result "Error:" = true :=
  ⟨fun (_ : Nat) (_t : String) h => ApiOutcome.noConfusion h,
    C7_error_results_tagged (fun _ => ApiOutcome.rateLimit) 3
      (fun (_ : Nat) (_t : String) h => ApiOutcome.noConfusion h)⟩

/-- Claim C8: for every reply text, the PDF renderer's line loop assigns
each line exactly the class the DOCX renderer's loop assigns it —
blank lines are skipped by both, and headers, experience bullets (with
the marker stripped) and plain paragraphs coincide in order. -/
theorem C8_renderers_classify_alike (text : String) :
    (docx_body (py_split_nl text) none).map docx_para_class =
      (pdf_body (py_split_nl text) none).map pdf_para_class :=
  body_class_eq (py_split_nl text) none

/-- Claim C9, counterexample: with the credential absent, the
sample-preview generate handler still builds its prompt (one prompt
built) before discovering the missing key — the claim that no prompt is
built on every path fails. -/
theorem C9_counterexample :
    (sample_preview_generate none (fun _ => ApiOutcome.rateLimit)).promptsBuilt = 1 ∧
    (sample_preview_generate none (fun _ => ApiOutcome.rateLimit)).errorShown = true ∧
    (sample_preview_generate none (fun _ => ApiOutcome.rateLimit)).apiCalls = 0 :=
  ⟨rfl, rfl, rfl⟩

/-- Claim C9, amended: when the credential environment variable is
absent, both paths show a user-visible error and never attempt a
completion call; the main pipeline halts before anything else, but the
sample-preview handler builds its sample prompt before checking the
credential. -/
theorem C9_missing_key_halts (service : Nat → ApiOutcome) :
    main_startup none =
      MainStartup.halted
        "OpenAI API key not configured. Please set the OPENAI_API_KEY environment variable." ∧
    (sample_preview_generate none service).errorShown = true ∧
    (sample_preview_generate none service).apiCalls = 0 ∧
    (sample_preview_generate none service).promptsBuilt = 1 :=
  ⟨rfl, rfl, rfl, rfl⟩

/-- Claim C10: `extract_name` returns the constant `"Curricula Vitae"`
for every input, and both rendered documents carry that constant as
their title paragraph, never the candidate's name. -/
theorem C10_constant_title (resume_text : String) :
    extract_name resume_text = "Curricula Vitae" ∧
    (save_resume_docx resume_text).head? = some (DocxPara.title "Curricula Vitae") ∧
    (save_resume_pdf resume_text).head? = some (PdfPara.para "ResumeTitle" "Curricula Vitae") :=
  ⟨rfl, rfl, rfl⟩
